import Mathlib

/-!
Verification of the OAuth 2.1 / MCP authorization layer.

Shallow embedding of the OAuth core of the repository:
the configuration records and constants of `oauth-config.ts`;
the `OAuthClient` class of `oauth-client.ts` (PKCE, authorization URL,
code-for-token exchange, refresh, token-validity queries);
the session correlator of `oauth-callback-server.ts` (`storeSession`,
the `/callback` handler); and the resource-server slice
(`TokenValidator.validateToken` and the `/mcp` handler's bearer-token and
audience checks).

Network I/O (`fetch`) and the crypto collaborators (`crypto.randomBytes`,
`crypto.createHash('sha256')`) are external to the repository; they are
modelled as explicit inputs: token-endpoint responses are passed in as
`Except AuthorizationError TokenResponse`, random bytes and the SHA-256
function are parameters.  Network activity performed by an operation is
returned as an explicit trace of `NetEvent`s.  JavaScript truthiness on
optional strings / numbers (`!x`, `x || y`) is modelled explicitly.
-/

namespace MCPOAuth

/-- From `oauth-config.ts`: `export const MCP_SERVER_URI = 'http://localhost:3000'`. -/
def MCP_SERVER_URI : String := "http://localhost:3000"

/-- From `oauth-config.ts`: interface `OAuthConfig`. -/
structure OAuthConfig where
  authorizationServer : String
  clientId : String
  clientSecret : Option String
  redirectUri : String
  scope : String
deriving DecidableEq, Repr

/-- From `oauth-config.ts`: interface `TokenResponse` (inbound token-endpoint JSON).
`expires_in` is in seconds. -/
structure TokenResponse where
  access_token : String
  token_type : String
  expires_in : Option Int
  refresh_token : Option String
  scope : Option String
deriving DecidableEq, Repr

/-- From `oauth-config.ts`: interface `AuthorizationError` (non-2xx token-endpoint body). -/
structure AuthorizationError where
  error : String
  error_description : Option String
deriving DecidableEq, Repr

/-- JavaScript truthiness of an optional string: `undefined`/`null` and `""` are falsy. -/
def truthyStr : Option String → Bool
  | none => false
  | some s => s ≠ ""

/-- JavaScript truthiness of an optional number: `undefined`/`null` and `0` are falsy. -/
def truthyInt : Option Int → Bool
  | none => false
  | some n => n ≠ 0

/-- Unwraps an optional string, defaulting to the empty string. -/
def orEmpty : Option String → String
  | some s => s
  | none => ""

/-- The token state of one `OAuthClient` instance (`oauth-client.ts` fields
`config`, `accessToken`, `refreshToken`, `tokenExpiry`); `tokenExpiry` is a
millisecond epoch instant, as produced by `Date.now()`. -/
structure OAuthClientState where
  config : OAuthConfig
  accessToken : Option String
  refreshToken : Option String
  tokenExpiry : Option Int
deriving DecidableEq, Repr

/-- The errors thrown by `OAuthClient` (each is a distinct `throw new Error(...)`
message in `oauth-client.ts`). -/
inductive OAuthError where
  | csrfMismatch
  | tokenExchangeFailed (error : String) (error_description : Option String)
  | tokenRefreshFailed (error : String) (error_description : Option String)
  | noRefreshToken
  | notAuthenticated
deriving DecidableEq, Repr

/-- The exact `Error` message strings of `oauth-client.ts` (an `undefined`
description prints as "undefined" in a template literal). -/
def OAuthError.message : OAuthError → String
  | .csrfMismatch => "State parameter mismatch - possible CSRF attack"
  | .tokenExchangeFailed e d =>
      "Token exchange failed: " ++ e ++ " - " ++
        (match d with | some s => s | none => "undefined")
  | .tokenRefreshFailed e d =>
      "Token refresh failed: " ++ e ++ " - " ++
        (match d with | some s => s | none => "undefined")
  | .noRefreshToken => "No refresh token available"
  | .notAuthenticated => "No access token available - authorization required"

/-- A network interaction performed by an `OAuthClient` operation:
the metadata `fetch` or the form-encoded token-endpoint POST (whose body is
the key/value pairs handed to `URLSearchParams`). -/
inductive NetEvent where
  | metadataFetch
  | tokenPost (body : List (String × String))
deriving DecidableEq, Repr

/-- The `tokenRequest` object built by `exchangeCodeForTokens`
(`oauth-client.ts` lines 122-129), in source order. -/
def exchangeTokenRequest (config : OAuthConfig) (code codeVerifier : String) :
    List (String × String) :=
  [("grant_type", "authorization_code"),
   ("client_id", config.clientId),
   ("code", code),
   ("redirect_uri", config.redirectUri),
   ("code_verifier", codeVerifier),
   ("resource", MCP_SERVER_URI)]

/-- The `tokenRequest` object built by `refreshAccessToken`
(`oauth-client.ts` lines 172-177), in source order. -/
def refreshTokenRequest (config : OAuthConfig) (refreshToken : String) :
    List (String × String) :=
  [("grant_type", "refresh_token"),
   ("client_id", config.clientId),
   ("refresh_token", refreshToken),
   ("resource", MCP_SERVER_URI)]

/-- Models `tokenResponse.expires_in ? Date.now() + (tokenResponse.expires_in * 1000) : null`
(the ternary tests JavaScript truthiness, so `expires_in = 0` yields `null`). -/
def expiryFrom (now : Int) (expires_in : Option Int) : Option Int :=
  match expires_in with
  | some n => if n ≠ 0 then some (now + n * 1000) else none
  | none => none

/-- Models `tokenResponse.refresh_token || null` (`oauth-client.ts` line 156):
a missing or empty `refresh_token` stores `null`. -/
def jsOrNull (v : Option String) : Option String :=
  match v with
  | some s => if s ≠ "" then some s else none
  | none => none

/-- Models `tokenResponse.refresh_token || this.refreshToken` (`oauth-client.ts`
line 203): a missing or empty `refresh_token` keeps the previously stored one. -/
def jsOrElse (v old : Option String) : Option String :=
  match v with
  | some s => if s ≠ "" then some s else old
  | none => old

/-- Embeds `OAuthClient.exchangeCodeForTokens(code, codeVerifier, state, expectedState)`
(`oauth-client.ts` lines 110-162).  The CSRF state check runs before the
metadata fetch and the token POST; `resp` is the token endpoint's reply
(`.error e` for a non-2xx response whose body parsed as an OAuth error object).
Returns the client state after the call, the outcome, and the network trace. -/
def exchangeCodeForTokens (cl : OAuthClientState)
    (code codeVerifier state expectedState : String) (now : Int)
    (resp : Except AuthorizationError TokenResponse) :
    OAuthClientState × Except OAuthError TokenResponse × List NetEvent :=
  if state ≠ expectedState then
    (cl, .error .csrfMismatch, [])
  else
    let body := exchangeTokenRequest cl.config code codeVerifier
    match resp with
    | .error e =>
        (cl, .error (.tokenExchangeFailed e.error e.error_description),
         [.metadataFetch, .tokenPost body])
    | .ok tr =>
        ({ cl with
            accessToken := some tr.access_token,
            refreshToken := jsOrNull tr.refresh_token,
            tokenExpiry := expiryFrom now tr.expires_in },
         .ok tr, [.metadataFetch, .tokenPost body])

/-- Embeds `OAuthClient.refreshAccessToken()` (`oauth-client.ts` lines 165-209).
The guard `if (!this.refreshToken) throw` is a JavaScript truthiness test; on a
successful response the stored `refreshToken` is replaced only when the
response carries a truthy `refresh_token` (rotation). -/
def refreshAccessToken (cl : OAuthClientState) (now : Int)
    (resp : Except AuthorizationError TokenResponse) :
    OAuthClientState × Except OAuthError TokenResponse × List NetEvent :=
  if ¬ truthyStr cl.refreshToken then
    (cl, .error .noRefreshToken, [])
  else
    let body := refreshTokenRequest cl.config (orEmpty cl.refreshToken)
    match resp with
    | .error e =>
        (cl, .error (.tokenRefreshFailed e.error e.error_description),
         [.metadataFetch, .tokenPost body])
    | .ok tr =>
        ({ cl with
            accessToken := some tr.access_token,
            refreshToken := jsOrElse tr.refresh_token cl.refreshToken,
            tokenExpiry := expiryFrom now tr.expires_in },
         .ok tr, [.metadataFetch, .tokenPost body])

/-- Embeds `OAuthClient.getValidAccessToken()` (`oauth-client.ts` lines 212-223).
The third component counts the `refreshAccessToken()` invocations (0 or 1).
The refresh is triggered when
`this.tokenExpiry && Date.now() > (this.tokenExpiry - 30000)`. -/
def getValidAccessToken (cl : OAuthClientState) (now : Int)
    (resp : Except AuthorizationError TokenResponse) :
    OAuthClientState × Except OAuthError String × Nat :=
  if ¬ truthyStr cl.accessToken then
    (cl, .error .notAuthenticated, 0)
  else if truthyInt cl.tokenExpiry ∧ now > cl.tokenExpiry.getD 0 - 30000 then
    match refreshAccessToken cl now resp with
    | (cl2, .error e, _) => (cl2, .error e, 1)
    | (cl2, .ok _, _) => (cl2, .ok (orEmpty cl2.accessToken), 1)
  else
    (cl, .ok (orEmpty cl.accessToken), 0)

/-- Embeds `OAuthClient.hasValidToken()` (`oauth-client.ts` lines 226-228):
`!!this.accessToken && (!this.tokenExpiry || Date.now() < this.tokenExpiry)`. -/
def hasValidToken (cl : OAuthClientState) (now : Int) : Bool :=
  truthyStr cl.accessToken && (!truthyInt cl.tokenExpiry || now < cl.tokenExpiry.getD 0)

/-- Embeds `OAuthClient.clearTokens()` (`oauth-client.ts` lines 231-235). -/
def clearTokens (cl : OAuthClientState) : OAuthClientState :=
  { cl with accessToken := none, refreshToken := none, tokenExpiry := none }

/-!
PKCE / state generation (`oauth-client.ts` lines 23-36).

Calls to `crypto.randomBytes(n)` are modelled by passing the drawn bytes in;
`crypto.createHash('sha256')` is modelled by passing the SHA-256 function
on byte lists in.  Node's `Buffer.toString('base64url')` is the URL-safe
base64 alphabet without padding; `Buffer.toString('hex')` is lowercase hex.
-/

/-- The URL-safe base64 alphabet of RFC 4648 section 5 (used by Node's
`'base64url'`), as a string. -/
def b64AlphabetStr : String :=
  "ABCDEFGHIJKLMNOPQRSTUVWXYZabcdefghijklmnopqrstuvwxyz0123456789-_"

/-- The URL-safe base64 alphabet, as a character list. -/
def b64Alphabet : List Char := b64AlphabetStr.data

/-- The character for a 6-bit group. -/
def b64Char (n : Nat) : Char := b64Alphabet.getD (n % 64) 'A'

/-- Node `Buffer.toString('base64url')`: bytes to URL-safe base64 characters,
no padding. -/
def base64urlChars : List Nat → List Char
  | [] => []
  | [b1] => [b64Char (b1 / 4), b64Char (b1 % 4 * 16)]
  | [b1, b2] => [b64Char (b1 / 4), b64Char (b1 % 4 * 16 + b2 / 16), b64Char (b2 % 16 * 4)]
  | b1 :: b2 :: b3 :: rest =>
      b64Char (b1 / 4) :: b64Char (b1 % 4 * 16 + b2 / 16) ::
      b64Char (b2 % 16 * 4 + b3 / 64) :: b64Char (b3 % 64) :: base64urlChars rest

/-- URL-safe base64 encoding of a byte list, as a string. -/
def base64urlEncode (bytes : List Nat) : String := String.mk (base64urlChars bytes)

/-- Number of characters a final partial group (input length mod 3) contributes
to an unpadded base64 encoding. -/
def b64PadLen (n : Nat) : Nat :=
  match n % 3 with
  | 0 => 0
  | 1 => 2
  | _ => 3

/-- The lowercase hex alphabet, for `Buffer.toString('hex')`. -/
def hexAlphabetStr : String := "0123456789abcdef"

/-- The lowercase hex digit for a 4-bit group. -/
def hexDigit (n : Nat) : Char := hexAlphabetStr.data.getD (n % 16) '0'

/-- Node `Buffer.toString('hex')`. -/
def hexEncode (bytes : List Nat) : String :=
  String.mk ((bytes.map (fun b => [hexDigit (b / 16), hexDigit (b % 16)])).flatten)

/-- UTF-8 bytes of an ASCII string (base64url / hex output is always ASCII),
as consumed by `hash.update(codeVerifier)`. -/
def strBytes (s : String) : List Nat := s.data.map Char.toNat

/-- Result of `generatePKCE`. -/
structure PKCEPair where
  codeVerifier : String
  codeChallenge : String
deriving DecidableEq, Repr

/-- Embeds `OAuthClient.generatePKCE()` (`oauth-client.ts` lines 23-31):
`codeVerifier = crypto.randomBytes(32).toString('base64url')`,
`codeChallenge = sha256(codeVerifier).digest('base64url')`.
The CSPRNG output (`randomBytes`, 32 bytes in the source call) and the SHA-256
function are explicit parameters. -/
def generatePKCE (sha256 : List Nat → List Nat) (randomBytes : List Nat) : PKCEPair :=
  let codeVerifier := base64urlEncode randomBytes
  let codeChallenge := base64urlEncode (sha256 (strBytes codeVerifier))
  { codeVerifier := codeVerifier, codeChallenge := codeChallenge }

/-- Embeds `OAuthClient.generateState()` (`oauth-client.ts` lines 34-36):
`crypto.randomBytes(16).toString('hex')`. -/
def generateState (stateRandom : List Nat) : String := hexEncode stateRandom

/-- The `URLSearchParams` entries of the authorization URL built by
`startAuthorization` (`oauth-client.ts` lines 93-102), in source order. -/
def authorizationParams (config : OAuthConfig) (state codeChallenge : String) :
    List (String × String) :=
  [("response_type", "code"),
   ("client_id", config.clientId),
   ("redirect_uri", config.redirectUri),
   ("scope", config.scope),
   ("state", state),
   ("code_challenge", codeChallenge),
   ("code_challenge_method", "S256"),
   ("resource", MCP_SERVER_URI)]

/-- Result of `startAuthorization`. -/
structure StartAuthorizationResult where
  params : List (String × String)
  state : String
  codeVerifier : String
deriving DecidableEq, Repr

/-- Embeds `OAuthClient.startAuthorization()` (`oauth-client.ts` lines 88-107).
The authorization URL is `metadata.authorization_endpoint` followed by a
question mark and the form-encoding of `params`; the query parameters
themselves are kept as the key/value list `params`. -/
def startAuthorization (cl : OAuthClientState) (sha256 : List Nat → List Nat)
    (pkceRandom stateRandom : List Nat) : StartAuthorizationResult :=
  let pkce := generatePKCE sha256 pkceRandom
  let state := generateState stateRandom
  { params := authorizationParams cl.config state pkce.codeChallenge,
    state := state,
    codeVerifier := pkce.codeVerifier }

/-!
Session correlator, from `oauth-callback-server.ts`.

The field `authSessions : Map<string, AuthSession>` is modelled as an
association list with JavaScript `Map` get/set/delete semantics.  Each
`AuthSession` stores the owning `OAuthClient` (here: its token state, which
`exchangeCodeForTokens` mutates).
-/

/-- From `oauth-callback-server.ts` lines 5-9: interface `AuthSession`. -/
structure AuthSession where
  state : String
  codeVerifier : String
  oauthClient : OAuthClientState
deriving DecidableEq, Repr

/-- The session map of the callback server. -/
abbrev SessionMap := List (String × AuthSession)

/-- JavaScript `Map.get`. -/
def mapGet (m : SessionMap) (k : String) : Option AuthSession := m.lookup k

/-- JavaScript `Map.set` (insert or overwrite). -/
def mapSet (m : SessionMap) (k : String) (v : AuthSession) : SessionMap :=
  (k, v) :: m.filter (fun p => p.1 ≠ k)

/-- JavaScript `Map.delete`. -/
def mapDelete (m : SessionMap) (k : String) : SessionMap :=
  m.filter (fun p => p.1 ≠ k)

/-- Embeds `OAuthCallbackServer.storeSession(state, codeVerifier, oauthClient)`
(`oauth-callback-server.ts` lines 130-132). -/
def storeSession (m : SessionMap) (state codeVerifier : String)
    (oauthClient : OAuthClientState) : SessionMap :=
  mapSet m state { state := state, codeVerifier := codeVerifier, oauthClient := oauthClient }

/-- Embeds `OAuthCallbackServer.getSession(state)`
(`oauth-callback-server.ts` lines 135-137). -/
def getSession (m : SessionMap) (state : String) : Option AuthSession := mapGet m state

/-- The HTTP response of the `/callback` handler, by branch
(`oauth-callback-server.ts` lines 23-104). -/
inductive CallbackResult where
  /-- HTTP 400, the "Authorization Failed" page (the `error` query parameter was present). -/
  | authorizationFailed (error : String) (error_description : Option String)
  /-- HTTP 400, the "Invalid Callback" page (missing `code` or `state`). -/
  | invalidCallback
  /-- HTTP 400, the "Invalid Session" page (no stored session for `state`). -/
  | invalidSession
  /-- HTTP 500, the "Authorization Failed" page (the token exchange threw). -/
  | exchangeFailed (e : OAuthError)
  /-- HTTP 200, the "Authorization Successful!" page. -/
  | success
deriving DecidableEq, Repr

/-- Embeds the `/callback` handler (`oauth-callback-server.ts` lines 23-104).
Query parameters arrive as optional strings; `if (error)` and
`if (!code || !state)` are JavaScript truthiness tests.  When a session is
found, the handler awaits `session.oauthClient.exchangeCodeForTokens(code,
session.codeVerifier, state, session.state)` — `resp` is the token endpoint's
reply consumed by that call — then deletes the session only in the success
path; the `catch` branch leaves the map untouched.  Returns the session map
after the request, the updated owning client's state (when an exchange ran),
and the HTTP outcome. -/
def handleCallback (m : SessionMap)
    (code state error error_description : Option String) (now : Int)
    (resp : Except AuthorizationError TokenResponse) :
    SessionMap × Option OAuthClientState × CallbackResult :=
  if truthyStr error then
    (m, none, .authorizationFailed (orEmpty error) error_description)
  else if ¬ truthyStr code ∨ ¬ truthyStr state then
    (m, none, .invalidCallback)
  else
    match mapGet m (orEmpty state) with
    | none => (m, none, .invalidSession)
    | some session =>
        match exchangeCodeForTokens session.oauthClient (orEmpty code)
            session.codeVerifier (orEmpty state) session.state now resp with
        | (cl2, .ok _, _) =>
            (mapDelete m (orEmpty state), some cl2, .success)
        | (cl2, .error e, _) =>
            (m, some cl2, .exchangeFailed e)

/-!
Resource server: `TokenValidator` and the `/mcp` handler of the HTTP stream
transport server (`src/unnamed/part_001`).
-/

/-- The scope string granted by the stub validator. -/
def mcpScopes : String := "mcp:read mcp:write"

/-- The `error` code of the missing-bearer 401 body. -/
def unauthorizedCode : String := "unauthorized"

/-- The `error` code of the invalid-token 401 body. -/
def invalidTokenCode : String := "invalid_token"

/-- The `error` code of the audience-mismatch 403 body. -/
def insufficientScopeCode : String := "insufficient_scope"

/-- The bearer scheme marker tested by `authHeader.startsWith('Bearer ')`. -/
def bearerScheme : String := "Bearer "

/-- JavaScript `String.prototype.startsWith`, on the character sequences. -/
def strStartsWith (s p : String) : Bool := p.data.isPrefixOf s.data

/-- The result contract of `validateToken`: `{ valid, audience?, scope? }`. -/
structure ValidationResult where
  valid : Bool
  audience : Option String
  scope : Option String
deriving DecidableEq, Repr

/-- Embeds the stub `TokenValidator.validateToken(token)`:
`!token || token.length < 10` rejects; any longer token is accepted with
audience `MCP_SERVER_URI` and scope `mcpScopes`. -/
def validateToken (token : String) : ValidationResult :=
  if token = "" ∨ token.length < 10 then
    { valid := false, audience := none, scope := none }
  else
    { valid := true, audience := some MCP_SERVER_URI, scope := some mcpScopes }

/-- The authorization outcome of the `/mcp` POST handler, by branch. -/
inductive McpAuthOutcome where
  /-- HTTP 401 `unauthorized` with `WWW-Authenticate` (missing/malformed bearer header). -/
  | missingBearer
  /-- HTTP 401 `invalid_token` with `WWW-Authenticate`. -/
  | invalidToken
  /-- HTTP 403 `insufficient_scope` (audience mismatch). -/
  | audienceMismatch
  /-- The request proceeds to JSON-RPC dispatch with this bearer token. -/
  | accepted (token : String)
deriving DecidableEq, Repr

/-- HTTP status of a rejected request (`none` when the request was accepted). -/
def McpAuthOutcome.errorStatus : McpAuthOutcome → Option Nat
  | .missingBearer => some 401
  | .invalidToken => some 401
  | .audienceMismatch => some 403
  | .accepted _ => none

/-- The `error` field of the rejection body. -/
def McpAuthOutcome.errorCode : McpAuthOutcome → Option String
  | .missingBearer => some unauthorizedCode
  | .invalidToken => some invalidTokenCode
  | .audienceMismatch => some insufficientScopeCode
  | .accepted _ => none

/-- Embeds the bearer-token / audience gate of the `/mcp` handler,
parameterized by the validator (the server instantiates it with
`validateToken`): `if (!authHeader || !authHeader.startsWith('Bearer '))`
responds 401 `unauthorized`; `validate(authHeader.substring(7))` not valid
responds 401 `invalid_token`; `tokenValidation.audience !== MCP_SERVER_URI`
responds 403 `insufficient_scope`; otherwise the JSON-RPC body is processed. -/
def mcpHandlerAuth (authHeader : Option String)
    (validate : String → ValidationResult) : McpAuthOutcome :=
  match authHeader with
  | none => .missingBearer
  | some h =>
      if h = "" ∨ ¬ strStartsWith h bearerScheme then .missingBearer
      else
        let token := h.drop 7
        let v := validate token
        if ¬ v.valid then .invalidToken
        else if v.audience ≠ some MCP_SERVER_URI then .audienceMismatch
        else .accepted token

/-!
Concrete fixtures, used by witnesses and counterexamples.
-/

/-- Fixture: a state value. -/
def stateS : String := "S"

/-- Fixture: a different state value. -/
def stateS2 : String := "S2"

/-- Fixture: an authorization code. -/
def code0 : String := "abc123"

/-- Fixture: a code verifier. -/
def verifier0 : String := "V"

/-- Fixture: a stored access token. -/
def tok0 : String := "tok0"

/-- Fixture: a stored refresh token. -/
def rt0 : String := "rt0"

/-- Fixture: a freshly issued access token. -/
def newTok : String := "newTok"

/-- Fixture: a freshly issued (rotated) refresh token. -/
def newRT : String := "newRT"

/-- Fixture: a configuration shaped like `DEFAULT_OAUTH_CONFIG` of `oauth-config.ts`. -/
def cfg0 : OAuthConfig :=
  { authorizationServer := "https://authserver.example.com",
    clientId := "agentic_ai",
    clientSecret := none,
    redirectUri := "http://localhost:3001/callback",
    scope := "mcp:read mcp:write" }

/-- Fixture: a client holding no tokens. -/
def cl0 : OAuthClientState :=
  { config := cfg0, accessToken := none, refreshToken := none, tokenExpiry := none }

/-- Fixture: a client holding an access token, a refresh token and an expiry
instant of 100000 ms. -/
def clTok : OAuthClientState :=
  { config := cfg0, accessToken := some tok0, refreshToken := some rt0,
    tokenExpiry := some 100000 }

/-- Fixture: a client holding an access token with expiry 100000 ms and no
refresh token. -/
def clNoRT : OAuthClientState :=
  { config := cfg0, accessToken := some tok0, refreshToken := none,
    tokenExpiry := some 100000 }

/-- Fixture: a non-2xx token-endpoint error body. -/
def errObj0 : AuthorizationError := { error := "invalid_grant", error_description := none }

/-- Fixture: a failing token-endpoint reply. -/
def respErr : Except AuthorizationError TokenResponse := .error errObj0

/-- Fixture: a successful token-endpoint reply with `expires_in = 3600` and a
rotated refresh token. -/
def tr0 : TokenResponse :=
  { access_token := newTok, token_type := "Bearer", expires_in := some 3600,
    refresh_token := some newRT, scope := none }

/-- Fixture: a session map holding one session, stored for state `stateS`. -/
def srvS : SessionMap := storeSession [] stateS verifier0 cl0

/-- Fixture: an audience different from the canonical resource URI. -/
def otherResource : String := "https://other.example.com"

/-- Fixture: a validator reporting a foreign audience on a valid token. -/
def badAudienceValidator : String → ValidationResult :=
  fun _ => { valid := true, audience := some otherResource, scope := none }

/-- Fixture: a bearer header whose token is 10 characters long. -/
def bearerHeader0 : String := "Bearer 1234567890"

/-- Fixture: a token shorter than 10 characters. -/
def shortTok : String := "short"

/-- Fixture: a token of exactly 10 characters. -/
def longTok : String := "abcdefghij"

/-- Fixture: a bearer header carrying `longTok`. -/
def bearerLong : String := "Bearer abcdefghij"

/-!
Theorems.
-/

/-- C2: a call `exchangeCodeForTokens(code, codeVerifier, receivedState,
expectedState)` with `receivedState != expectedState` fails with the CSRF
state-mismatch error before any network call (the trace is empty) and leaves
the client's stored token state unchanged. -/
theorem exchange_csrf_mismatch (cl : OAuthClientState)
    (code codeVerifier state expectedState : String) (now : Int)
    (resp : Except AuthorizationError TokenResponse)
    (h : state ≠ expectedState) :
    exchangeCodeForTokens cl code codeVerifier state expectedState now resp =
      (cl, .error .csrfMismatch, []) := by
  simp [exchangeCodeForTokens, h]

/-- Witness for `exchange_csrf_mismatch` at concrete inputs. -/
theorem exchange_csrf_mismatch_witness :
    stateS ≠ stateS2 ∧
    exchangeCodeForTokens cl0 code0 verifier0 stateS stateS2 0 respErr =
      (cl0, .error .csrfMismatch, []) :=
  ⟨by decide, exchange_csrf_mismatch cl0 code0 verifier0 stateS stateS2 0 respErr (by decide)⟩

/-- C5: `refreshAccessToken()` fails with the no-refresh-token error when no
(truthy) refresh token is held, and on every failure — no refresh token held,
or a non-2xx token-endpoint response — the previously stored `accessToken`,
`refreshToken` and `tokenExpiry` are unchanged (the whole client state is
preserved), the latter failure carrying the upstream OAuth error and
description. -/
theorem refresh_failure_preserves_tokens (cl : OAuthClientState) (now : Int)
    (resp : Except AuthorizationError TokenResponse) :
    (truthyStr cl.refreshToken = false →
        refreshAccessToken cl now resp = (cl, .error .noRefreshToken, [])) ∧
    (∀ e, resp = .error e → (refreshAccessToken cl now resp).1 = cl) ∧
    (∀ e, truthyStr cl.refreshToken = true → resp = .error e →
        (refreshAccessToken cl now resp).2.1 =
          .error (.tokenRefreshFailed e.error e.error_description)) := by
  refine ⟨?_, ?_, ?_⟩
  · intro h
    simp [refreshAccessToken, h]
  · intro e he
    subst he
    cases h : truthyStr cl.refreshToken <;> simp [refreshAccessToken, h]
  · intro e ht he
    subst he
    simp [refreshAccessToken, ht]

/-- Witness for `refresh_failure_preserves_tokens`: a client without a refresh
token fails with the no-refresh-token error, and a client with tokens keeps
its state across a failing refresh. -/
theorem refresh_failure_preserves_tokens_witness :
    refreshAccessToken cl0 0 respErr = (cl0, .error .noRefreshToken, []) ∧
    (refreshAccessToken clTok 0 respErr).1 = clTok ∧
    (refreshAccessToken clTok 0 respErr).2.1 =
      .error (.tokenRefreshFailed errObj0.error errObj0.error_description) :=
  ⟨(refresh_failure_preserves_tokens cl0 0 respErr).1 rfl,
   (refresh_failure_preserves_tokens clTok 0 respErr).2.1 errObj0 rfl,
   (refresh_failure_preserves_tokens clTok 0 respErr).2.2 errObj0 (by decide) rfl⟩

/-- C6: a successful `refreshAccessToken()` replaces the stored `accessToken`
with the response's `access_token` and the stored `tokenExpiry` with
`now + expires_in * 1000`, and replaces the stored `refreshToken` only when
the response carries a (truthy) `refresh_token` (rotation); otherwise the
prior refresh token is retained.  The configuration is untouched. -/
theorem refresh_success_rotation (cl : OAuthClientState) (now : Int)
    (tr : TokenResponse) (h : truthyStr cl.refreshToken = true) :
    (refreshAccessToken cl now (.ok tr)).2.1 = .ok tr ∧
    (refreshAccessToken cl now (.ok tr)).1.accessToken = some tr.access_token ∧
    (∀ n, tr.expires_in = some n → n ≠ 0 →
        (refreshAccessToken cl now (.ok tr)).1.tokenExpiry = some (now + n * 1000)) ∧
    (∀ rt2, tr.refresh_token = some rt2 → rt2 ≠ "" →
        (refreshAccessToken cl now (.ok tr)).1.refreshToken = some rt2) ∧
    (truthyStr tr.refresh_token = false →
        (refreshAccessToken cl now (.ok tr)).1.refreshToken = cl.refreshToken) ∧
    (refreshAccessToken cl now (.ok tr)).1.config = cl.config := by
  refine ⟨?_, ?_, ?_, ?_, ?_, ?_⟩
  · simp [refreshAccessToken, h]
  · simp [refreshAccessToken, h]
  · intro n hn hn0
    simp [refreshAccessToken, h, expiryFrom, hn, hn0]
  · intro rt2 h2 h2ne
    simp [refreshAccessToken, h, jsOrElse, h2, h2ne]
  · intro h5
    cases htr : tr.refresh_token with
    | none => simp [refreshAccessToken, h, jsOrElse, htr]
    | some s =>
        rw [htr] at h5
        simp [truthyStr] at h5
        simp [refreshAccessToken, h, jsOrElse, htr, h5]
  · simp [refreshAccessToken, h]

/-- Witness for `refresh_success_rotation` at concrete inputs: the refresh
rotates the refresh token and sets the new expiry. -/
theorem refresh_success_rotation_witness :
    (refreshAccessToken clTok 1000 (.ok tr0)).1.accessToken = some tr0.access_token ∧
    (refreshAccessToken clTok 1000 (.ok tr0)).1.tokenExpiry = some (1000 + 3600 * 1000) ∧
    (refreshAccessToken clTok 1000 (.ok tr0)).1.refreshToken = some newRT :=
  ⟨(refresh_success_rotation clTok 1000 tr0 (by decide)).2.1,
   (refresh_success_rotation clTok 1000 tr0 (by decide)).2.2.1 3600 rfl (by decide),
   (refresh_success_rotation clTok 1000 tr0 (by decide)).2.2.2.1 newRT rfl (by decide)⟩

/-- C3 counterexample: with an access token stored and `tokenExpiry = 100000`,
`hasValidToken` already returns `true` at `now = 90000`, although
`now < tokenExpiry - 30000` fails — the 30-second refresh skew plays no role
in `hasValidToken`. -/
theorem hasValidToken_no_skew_counterexample :
    clTok.tokenExpiry = some 100000 ∧
    hasValidToken clTok 90000 = true ∧
    ¬ ((90000 : Int) < 100000 - 30000) :=
  ⟨rfl, by decide, by decide⟩

/-- C3 (amended): with an access token stored, `hasValidToken()` is true
exactly while `now < expiryInstant` (strictly, with no refresh skew) when a
nonzero expiry instant is tracked, and always when none is tracked; the
30-second skew only governs the refresh trigger inside
`getValidAccessToken()`. -/
theorem hasValidToken_characterization (cl : OAuthClientState) (a : String)
    (now : Int) (ha : cl.accessToken = some a) (hane : a ≠ "") :
    (∀ e, cl.tokenExpiry = some e → e ≠ 0 →
        (hasValidToken cl now = true ↔ now < e)) ∧
    (cl.tokenExpiry = none → hasValidToken cl now = true) := by
  constructor
  · intro e he hne
    simp [hasValidToken, truthyStr, truthyInt, ha, hane, he, hne]
  · intro he
    simp [hasValidToken, truthyStr, truthyInt, ha, hane, he]

/-- Witness for `hasValidToken_characterization` at concrete inputs. -/
theorem hasValidToken_characterization_witness :
    tok0 ≠ "" ∧ (100000 : Int) ≠ 0 ∧
    (hasValidToken clTok 50000 = true ↔ (50000 : Int) < 100000) :=
  ⟨by decide, by decide,
   (hasValidToken_characterization clTok tok0 50000 rfl (by decide)).1 100000 rfl
     (by decide)⟩

/-- C4 counterexample: with an access token stored, an expired
`tokenExpiry = 100000` and no refresh token, `getValidAccessToken` at
`now = 200000` fails with the no-refresh-token error, not with the
not-authenticated error. -/
theorem getValidAccessToken_expired_noRT_counterexample :
    (getValidAccessToken clNoRT 200000 respErr).2.1 = .error .noRefreshToken ∧
    OAuthError.noRefreshToken ≠ OAuthError.notAuthenticated :=
  ⟨rfl, by decide⟩

/-- C4 (amended): `getValidAccessToken()` fails with the not-authenticated
error when no (truthy) access token is stored; when a nonzero expiry is
tracked and `now > expiry - 30000` it invokes `refreshAccessToken()` exactly
once; otherwise it makes no refresh call and returns the stored token; after
a successful refresh it returns the new access token; and when the token is
past the skew with no refresh token held it fails with the no-refresh-token
error (not the not-authenticated error). -/
theorem getValidAccessToken_spec (cl : OAuthClientState) (now : Int)
    (resp : Except AuthorizationError TokenResponse) :
    (truthyStr cl.accessToken = false →
        getValidAccessToken cl now resp = (cl, .error .notAuthenticated, 0)) ∧
    (∀ e, truthyStr cl.accessToken = true → cl.tokenExpiry = some e → e ≠ 0 →
        now > e - 30000 → (getValidAccessToken cl now resp).2.2 = 1) ∧
    (∀ a, cl.accessToken = some a → a ≠ "" →
        (truthyInt cl.tokenExpiry = false ∨ ¬ now > cl.tokenExpiry.getD 0 - 30000) →
        getValidAccessToken cl now resp = (cl, .ok a, 0)) ∧
    (∀ e tr, truthyStr cl.accessToken = true → truthyStr cl.refreshToken = true →
        cl.tokenExpiry = some e → e ≠ 0 → now > e - 30000 → resp = .ok tr →
        (getValidAccessToken cl now resp).2.1 = .ok tr.access_token) ∧
    (∀ e, truthyStr cl.accessToken = true → truthyStr cl.refreshToken = false →
        cl.tokenExpiry = some e → e ≠ 0 → now > e - 30000 →
        (getValidAccessToken cl now resp).2.1 = .error .noRefreshToken) := by
  refine ⟨?_, ?_, ?_, ?_, ?_⟩
  · intro h
    simp [getValidAccessToken, h]
  · intro e ha he hne hgt
    rcases hr : refreshAccessToken cl now resp with ⟨cl2, r, t⟩
    cases r <;> simp [getValidAccessToken, ha, he, truthyInt, hne, hgt, hr]
  · intro a ha hane hcond
    rcases hcond with hcond | hcond
    · simp [getValidAccessToken, truthyStr, ha, hane, hcond, orEmpty]
    · simp [getValidAccessToken, truthyStr, ha, hane, hcond, orEmpty]
  · intro e tr ha hrt he hne hgt hresp
    subst hresp
    simp [getValidAccessToken, refreshAccessToken, ha, he, truthyInt, hne, hgt, hrt, orEmpty]
  · intro e ha hrt he hne hgt
    simp [getValidAccessToken, refreshAccessToken, ha, he, truthyInt, hne, hgt, hrt]

/-- Witness for `getValidAccessToken_spec` at concrete inputs: the
not-authenticated failure, the single refresh call past the skew, the
refresh-free return inside the validity window, the refreshed token value,
and the no-refresh-token failure. -/
theorem getValidAccessToken_spec_witness :
    getValidAccessToken cl0 0 respErr = (cl0, .error .notAuthenticated, 0) ∧
    (getValidAccessToken clTok 80000 (.ok tr0)).2.2 = 1 ∧
    getValidAccessToken clTok 0 respErr = (clTok, .ok tok0, 0) ∧
    (getValidAccessToken clTok 80000 (.ok tr0)).2.1 = .ok tr0.access_token ∧
    (getValidAccessToken clNoRT 80000 respErr).2.1 = .error .noRefreshToken :=
  ⟨(getValidAccessToken_spec cl0 0 respErr).1 rfl,
   (getValidAccessToken_spec clTok 80000 (.ok tr0)).2.1 100000 (by decide) rfl
     (by decide) (by decide),
   (getValidAccessToken_spec clTok 0 respErr).2.2.1 tok0 rfl (by decide)
     (Or.inr (by decide)),
   (getValidAccessToken_spec clTok 80000 (.ok tr0)).2.2.2.1 100000 tr0 (by decide)
     (by decide) rfl (by decide) (by decide) rfl,
   (getValidAccessToken_spec clNoRT 80000 respErr).2.2.2.2 100000 (by decide) rfl rfl
     (by decide) (by decide)⟩

/-- C7: the authorization URL built by `startAuthorization()` and every
token-request body built by `exchangeCodeForTokens()` and
`refreshAccessToken()` (every `tokenPost` event in their network traces)
contain a `resource` parameter equal to the configured canonical resource URI
`MCP_SERVER_URI`. -/
theorem resource_indicator_present (cl cl2 : OAuthClientState)
    (sha256 : List Nat → List Nat) (pkceRandom stateRandom : List Nat)
    (config : OAuthConfig) (code codeVerifier refreshTok : String)
    (c v st est : String) (now : Int)
    (resp : Except AuthorizationError TokenResponse)
    (body : List (String × String)) :
    ("resource", MCP_SERVER_URI) ∈
        (startAuthorization cl sha256 pkceRandom stateRandom).params ∧
    ("resource", MCP_SERVER_URI) ∈ exchangeTokenRequest config code codeVerifier ∧
    ("resource", MCP_SERVER_URI) ∈ refreshTokenRequest config refreshTok ∧
    (NetEvent.tokenPost body ∈ (exchangeCodeForTokens cl2 c v st est now resp).2.2 →
        ("resource", MCP_SERVER_URI) ∈ body) ∧
    (NetEvent.tokenPost body ∈ (refreshAccessToken cl2 now resp).2.2 →
        ("resource", MCP_SERVER_URI) ∈ body) := by
  refine ⟨?_, ?_, ?_, ?_, ?_⟩
  · simp [startAuthorization, authorizationParams]
  · simp [exchangeTokenRequest]
  · simp [refreshTokenRequest]
  · intro hmem
    by_cases hst : st = est
    · subst hst
      cases resp with
      | error e =>
          simp [exchangeCodeForTokens] at hmem
          subst hmem
          simp [exchangeTokenRequest]
      | ok tr =>
          simp [exchangeCodeForTokens] at hmem
          subst hmem
          simp [exchangeTokenRequest]
    · simp [exchangeCodeForTokens, hst] at hmem
  · intro hmem
    by_cases hrt : truthyStr cl2.refreshToken = true
    · cases resp with
      | error e =>
          simp [refreshAccessToken, hrt] at hmem
          subst hmem
          simp [refreshTokenRequest]
      | ok tr =>
          simp [refreshAccessToken, hrt] at hmem
          subst hmem
          simp [refreshTokenRequest]
    · rw [Bool.not_eq_true] at hrt
      simp [refreshAccessToken, hrt] at hmem

/-- Witness for `resource_indicator_present`: concrete exchange and refresh
traces whose token-POST bodies carry the `resource` parameter. -/
theorem resource_indicator_present_witness :
    ("resource", MCP_SERVER_URI) ∈ exchangeTokenRequest cfg0 code0 verifier0 ∧
    ("resource", MCP_SERVER_URI) ∈ refreshTokenRequest cfg0 rt0 :=
  ⟨(resource_indicator_present cl0 cl0 (fun x => x) [] [] cfg0 code0 verifier0 rt0
      code0 verifier0 stateS stateS 0 respErr
      (exchangeTokenRequest cfg0 code0 verifier0)).2.2.2.1 (by decide),
   (resource_indicator_present cl0 clTok (fun x => x) [] [] cfg0 code0 verifier0 rt0
      code0 verifier0 stateS stateS 0 respErr
      (refreshTokenRequest cfg0 rt0)).2.2.2.2 (by decide)⟩

/-- C9: a request whose bearer token validates as `valid = true` but whose
reported audience differs from the canonical resource URI is answered with
HTTP 403 and error `insufficient_scope`, and is never accepted. -/
theorem audience_mismatch_rejected (validate : String → ValidationResult)
    (h : String) (hb : strStartsWith h bearerScheme = true)
    (hv : (validate (h.drop 7)).valid = true)
    (ha : (validate (h.drop 7)).audience ≠ some MCP_SERVER_URI) :
    mcpHandlerAuth (some h) validate = .audienceMismatch ∧
    (mcpHandlerAuth (some h) validate).errorStatus = some 403 ∧
    (mcpHandlerAuth (some h) validate).errorCode = some insufficientScopeCode ∧
    ∀ t, mcpHandlerAuth (some h) validate ≠ .accepted t := by
  have hne : h ≠ "" := by
    intro he
    subst he
    exact absurd hb (by decide)
  have hmain : mcpHandlerAuth (some h) validate = .audienceMismatch := by
    simp [mcpHandlerAuth, hne, hb, hv, ha]
  refine ⟨hmain, ?_, ?_, ?_⟩
  · rw [hmain]; rfl
  · rw [hmain]; rfl
  · intro t
    rw [hmain]
    simp

/-- Witness for `audience_mismatch_rejected`: a validator reporting audience
`otherResource` on the concrete header `bearerHeader0` draws the 403. -/
theorem audience_mismatch_rejected_witness :
    mcpHandlerAuth (some bearerHeader0) badAudienceValidator = .audienceMismatch ∧
    (mcpHandlerAuth (some bearerHeader0) badAudienceValidator).errorStatus = some 403 :=
  ⟨(audience_mismatch_rejected badAudienceValidator bearerHeader0 (by decide) rfl
      (by decide)).1,
   (audience_mismatch_rejected badAudienceValidator bearerHeader0 (by decide) rfl
      (by decide)).2.1⟩

/-- C10: the stub `validateToken` rejects every token shorter than 10
characters and accepts every token of length at least 10 with audience
`MCP_SERVER_URI` (= `http://localhost:3000`) and scope `mcp:read mcp:write`;
whenever it reports `valid = true` the audience equals the canonical resource
URI, so the `/mcp` handler's 403 audience-mismatch branch is unreachable with
this validator. -/
theorem validateToken_stub_spec (token : String) (authHeader : Option String) :
    (token.length < 10 → validateToken token = ⟨false, none, none⟩) ∧
    (10 ≤ token.length →
        validateToken token = ⟨true, some MCP_SERVER_URI, some mcpScopes⟩) ∧
    ((validateToken token).valid = true →
        (validateToken token).audience = some MCP_SERVER_URI) ∧
    MCP_SERVER_URI = "http://localhost:3000" ∧
    mcpScopes = "mcp:read mcp:write" ∧
    mcpHandlerAuth authHeader validateToken ≠ .audienceMismatch := by
  refine ⟨?_, ?_, ?_, rfl, rfl, ?_⟩
  · intro hlt
    simp [validateToken, hlt]
  · intro hge
    have h1 : ¬ token.length < 10 := by omega
    have h2 : token ≠ "" := by
      intro he
      subst he
      simp at hge
    simp [validateToken, h1, h2]
  · intro hv
    by_cases hc : token = "" ∨ token.length < 10
    · rw [validateToken, if_pos hc] at hv
      exact absurd hv (by decide)
    · rw [validateToken, if_neg hc]
  · cases authHeader with
    | none => simp [mcpHandlerAuth]
    | some h =>
        simp only [mcpHandlerAuth]
        by_cases hg : h = "" ∨ ¬ strStartsWith h bearerScheme
        · rw [if_pos hg]
          simp
        · rw [if_neg hg]
          by_cases hc : h.drop 7 = "" ∨ (h.drop 7).length < 10
          · have hvt : validateToken (h.drop 7) = ⟨false, none, none⟩ := by
              rw [validateToken, if_pos hc]
            rw [hvt]
            simp
          · have hvt : validateToken (h.drop 7) =
                ⟨true, some MCP_SERVER_URI, some mcpScopes⟩ := by
              rw [validateToken, if_neg hc]
            rw [hvt]
            simp

/-- Witness for `validateToken_stub_spec`: a 5-character token is rejected, a
10-character token is accepted with the canonical audience, and a request
carrying it is never answered with the 403 audience-mismatch. -/
theorem validateToken_stub_spec_witness :
    validateToken shortTok = ⟨false, none, none⟩ ∧
    validateToken longTok = ⟨true, some MCP_SERVER_URI, some mcpScopes⟩ ∧
    mcpHandlerAuth (some bearerLong) validateToken ≠ .audienceMismatch :=
  ⟨(validateToken_stub_spec shortTok none).1 (by decide),
   (validateToken_stub_spec longTok none).2.1 (by decide),
   (validateToken_stub_spec longTok (some bearerLong)).2.2.2.2.2⟩

/-- Deleting a key from the session map makes lookup of that key fail. -/
theorem mapGet_mapDelete (m : SessionMap) (k : String) :
    mapGet (mapDelete m k) k = none := by
  induction m with
  | nil => rfl
  | cons p rest ih =>
      rcases p with ⟨k', v⟩
      by_cases h : k' = k
      · subst h
        simpa [mapDelete, List.filter_cons] using ih
      · simp only [mapDelete, mapGet, List.filter_cons, decide_not] at ih ⊢
        have hf : (!decide (k' = k)) = true := by simp [h]
        rw [hf]
        simp only [List.lookup]
        have hkk : (k == k') = false := by
          rw [beq_eq_false_iff_ne]
          exact Ne.symm h
        rw [hkk]
        exact ih

/-- C1 counterexample: with a stored session for state `stateS`, a callback
whose token exchange is invoked and fails leaves the session in the map (the
result is the 500 exchange-failure page but the map is unchanged), so a
second callback with the same state still finds the session instead of
failing with unknown-session — the session is not deleted "regardless of
exchange outcome". -/
theorem handleCallback_failed_exchange_counterexample :
    (handleCallback srvS (some code0) (some stateS) none none 0 respErr).2.2 =
      .exchangeFailed (.tokenExchangeFailed errObj0.error errObj0.error_description) ∧
    (handleCallback srvS (some code0) (some stateS) none none 0 respErr).1 = srvS ∧
    getSession (handleCallback srvS (some code0) (some stateS) none none 0 respErr).1
      stateS = some ⟨stateS, verifier0, cl0⟩ ∧
    (handleCallback (handleCallback srvS (some code0) (some stateS) none none 0 respErr).1
        (some code0) (some stateS) none none 0 respErr).2.2 ≠ .invalidSession := by
  refine ⟨by decide, by decide, by decide, by decide⟩

/-- C1 (amended): when the Session Correlator finds a stored session for the
received state and the owning client's exchange succeeds, the session is
deleted and a second callback with the same state fails with unknown-session;
but when the exchange fails, the session map is left unchanged (the session
is deleted only on success) and the handler reports the exchange failure. -/
theorem handleCallback_single_use (m : SessionMap) (c s : String)
    (sess : AuthSession) (now : Int)
    (resp : Except AuthorizationError TokenResponse)
    (hc : c ≠ "") (hs : s ≠ "") (hm : mapGet m s = some sess) :
    (∀ tr, resp = .ok tr → sess.state = s →
        (handleCallback m (some c) (some s) none none now resp).1 = mapDelete m s ∧
        (handleCallback m (some c) (some s) none none now resp).2.2 = .success ∧
        (∀ c2 now2 resp2, c2 ≠ "" →
            (handleCallback (mapDelete m s) (some c2) (some s) none none now2
              resp2).2.2 = .invalidSession)) ∧
    (∀ e, (exchangeCodeForTokens sess.oauthClient c sess.codeVerifier s sess.state
            now resp).2.1 = .error e →
        (handleCallback m (some c) (some s) none none now resp).1 = m ∧
        (handleCallback m (some c) (some s) none none now resp).2.2 =
          .exchangeFailed e) := by
  constructor
  · intro tr hresp hst
    subst hresp
    refine ⟨?_, ?_, ?_⟩
    · simp [handleCallback, truthyStr, hc, hs, orEmpty, hm, exchangeCodeForTokens, hst]
    · simp [handleCallback, truthyStr, hc, hs, orEmpty, hm, exchangeCodeForTokens, hst]
    · intro c2 now2 resp2 hc2
      have hnone : mapGet (mapDelete m s) s = none := mapGet_mapDelete m s
      simp [handleCallback, truthyStr, hc2, hs, orEmpty, hnone]
  · intro e he
    rcases hex : exchangeCodeForTokens sess.oauthClient c sess.codeVerifier s sess.state
        now resp with ⟨cl2, r, tv⟩
    rw [hex] at he
    simp at he
    subst he
    constructor <;> simp [handleCallback, truthyStr, hc, hs, orEmpty, hm, hex]

/-- Witness for `handleCallback_single_use`: a successful callback for the
stored state deletes the session and a replay of the same state is answered
with the unknown-session page. -/
theorem handleCallback_single_use_witness :
    (handleCallback srvS (some code0) (some stateS) none none 0 (.ok tr0)).1 =
      mapDelete srvS stateS ∧
    (handleCallback srvS (some code0) (some stateS) none none 0 (.ok tr0)).2.2 =
      .success ∧
    (handleCallback (mapDelete srvS stateS) (some code0) (some stateS) none none 0
        (.ok tr0)).2.2 = .invalidSession :=
  ⟨((handleCallback_single_use srvS code0 stateS ⟨stateS, verifier0, cl0⟩ 0 (.ok tr0)
      (by decide) (by decide) (by decide)).1 tr0 rfl rfl).1,
   ((handleCallback_single_use srvS code0 stateS ⟨stateS, verifier0, cl0⟩ 0 (.ok tr0)
      (by decide) (by decide) (by decide)).1 tr0 rfl rfl).2.1,
   ((handleCallback_single_use srvS code0 stateS ⟨stateS, verifier0, cl0⟩ 0 (.ok tr0)
      (by decide) (by decide) (by decide)).1 tr0 rfl rfl).2.2 code0 0 (.ok tr0)
      (by decide)⟩

/-- Every character emitted for a 6-bit group lies in the URL-safe alphabet. -/
theorem b64Char_mem (n : Nat) : b64Char n ∈ b64Alphabet := by
  have h64 : n % 64 < 64 := Nat.mod_lt _ (by decide)
  have h : n % 64 < b64Alphabet.length := by
    rw [show b64Alphabet.length = 64 from rfl]
    exact h64
  unfold b64Char
  rw [List.getD_eq_getElem _ _ h]
  exact List.getElem_mem h

/-- Every character of a base64url encoding lies in the URL-safe alphabet. -/
theorem base64urlChars_mem (bs : List Nat) :
    ∀ c ∈ base64urlChars bs, c ∈ b64Alphabet := by
  induction bs using base64urlChars.induct with
  | case1 =>
      intro c hc
      simp [base64urlChars] at hc
  | case2 b1 =>
      intro c hc
      simp [base64urlChars] at hc
      rcases hc with h | h <;> (subst h; exact b64Char_mem _)
  | case3 b1 b2 =>
      intro c hc
      simp [base64urlChars] at hc
      rcases hc with h | h | h <;> (subst h; exact b64Char_mem _)
  | case4 b1 b2 b3 rest ih =>
      intro c hc
      simp [base64urlChars] at hc
      rcases hc with h | h | h | h | h
      · subst h; exact b64Char_mem _
      · subst h; exact b64Char_mem _
      · subst h; exact b64Char_mem _
      · subst h; exact b64Char_mem _
      · exact ih c h

/-- Length of a base64url encoding: four characters per full 3-byte group plus
the contribution of the final partial group. -/
theorem base64urlChars_length (bs : List Nat) :
    (base64urlChars bs).length = 4 * (bs.length / 3) + b64PadLen bs.length := by
  induction bs using base64urlChars.induct with
  | case1 => rfl
  | case2 b1 => simp [base64urlChars, b64PadLen]
  | case3 b1 b2 => simp [base64urlChars, b64PadLen]
  | case4 b1 b2 b3 rest ih =>
      have h1 : base64urlChars (b1 :: b2 :: b3 :: rest) =
          b64Char (b1 / 4) :: b64Char (b1 % 4 * 16 + b2 / 16) ::
          b64Char (b2 % 16 * 4 + b3 / 64) :: b64Char (b3 % 64) ::
          base64urlChars rest := rfl
      rw [h1]
      simp only [List.length_cons]
      rw [ih]
      have hpad : b64PadLen (rest.length + 1 + 1 + 1) = b64PadLen rest.length := by
        unfold b64PadLen
        have hmod : (rest.length + 1 + 1 + 1) % 3 = rest.length % 3 := by omega
        rw [hmod]
      rw [hpad]
      have hdiv : (rest.length + 1 + 1 + 1) / 3 = rest.length / 3 + 1 := by omega
      rw [hdiv]
      generalize b64PadLen rest.length = p
      generalize rest.length / 3 = q
      omega

/-- C8: for the PKCE pair generated from the 32 random bytes drawn by
`generatePKCE()`, the code challenge is the base64url encoding of the SHA-256
digest of the code verifier's bytes (for every hash function, hence for
SHA-256); the code verifier is exactly the base64url encoding of the 32
random bytes (256 bits of entropy consumed from the random source), is 43
characters long, uses only the URL-safe alphabet, and carries no padding
character. -/
theorem generatePKCE_spec (sha256 : List Nat → List Nat) (randomBytes : List Nat)
    (h : randomBytes.length = 32) :
    (generatePKCE sha256 randomBytes).codeChallenge =
      base64urlEncode (sha256 (strBytes (generatePKCE sha256 randomBytes).codeVerifier)) ∧
    (generatePKCE sha256 randomBytes).codeVerifier = base64urlEncode randomBytes ∧
    (generatePKCE sha256 randomBytes).codeVerifier.length = 43 ∧
    (∀ c ∈ (generatePKCE sha256 randomBytes).codeVerifier.data, c ∈ b64Alphabet) ∧
    '=' ∉ (generatePKCE sha256 randomBytes).codeVerifier.data := by
  refine ⟨rfl, rfl, ?_, ?_, ?_⟩
  · show (base64urlChars randomBytes).length = 43
    rw [base64urlChars_length, h]
    rfl
  · intro c hc
    exact base64urlChars_mem randomBytes c hc
  · intro hc
    exact absurd (base64urlChars_mem randomBytes '=' hc) (by decide)

/-- Witness for `generatePKCE_spec` on a concrete 32-byte draw (the identity
standing in for the hash, which the theorem quantifies over). -/
theorem generatePKCE_spec_witness :
    (List.range 32).length = 32 ∧
    (generatePKCE (fun bs => bs) (List.range 32)).codeVerifier.length = 43 ∧
    '=' ∉ (generatePKCE (fun bs => bs) (List.range 32)).codeVerifier.data :=
  ⟨by decide,
   (generatePKCE_spec (fun bs => bs) (List.range 32) (by decide)).2.2.1,
   (generatePKCE_spec (fun bs => bs) (List.range 32) (by decide)).2.2.2.2⟩

end MCPOAuth
